import Mathlib

/-!
Verification of the mavely-discord-bot repository against its
natural-language specification.

The embedding below is a shallow translation of the TypeScript sources:

* src/services/auth.ts      — token cache, loginToMavely, getAuthToken
* src/services/affiliate.ts — generateAffiliateLink
* commands/linkHandler.ts   — handleLink (URL regex, reply)

Asynchronous network calls are modelled by passing the outcome of the
network interaction (the axios response or the thrown error) as an
explicit argument; module-level mutable state becomes explicit state
passing; JavaScript truthiness of string-or-null values is modelled
explicitly.  Components that exist only in the specification (the
extraction pipeline and the rate limiter) are modelled from the spec and
marked as such in their doc comments.
-/

namespace Mavely

/-- JavaScript truthiness of a `string | null` value: `null` and the
empty string are falsy, every other string is truthy. -/
def truthyOpt : Option String → Bool
  | none => false
  | some s => !(s == "")

/-- The module-level mutable state of src/services/auth.ts:
`let authToken: string | null = null; let tokenExpiry: Date | null = null`.
Dates are modelled as milliseconds since the epoch. -/
structure AuthState where
  authToken : Option String
  tokenExpiry : Option Nat
  deriving Repr, DecidableEq

/-- The state a freshly started process begins with: both module-level
variables are initialised to `null`. -/
def initialAuthState : AuthState := { authToken := none, tokenExpiry := none }

/-- `TOKEN_EXPIRY_HOURS * 60 * 60 * 1000` from auth.ts
(`TOKEN_EXPIRY_HOURS = 1`). -/
def tokenExpiryMs : Nat := 1 * 60 * 60 * 1000

/-- The cache check in loginToMavely:
`if (authToken && tokenExpiry && new Date() < tokenExpiry)`.
A non-null `Date` object is always truthy, so the check is: token truthy,
expiry non-null, and the current time strictly before the expiry. -/
def cacheValid (s : AuthState) (now : Nat) : Bool :=
  truthyOpt s.authToken &&
    (match s.tokenExpiry with
     | some e => decide (now < e)
     | none => false)

/-- Kinds of errors the login request can fail with.  auth.ts does not
inspect the kind beyond logging, but the spec distinguishes them, so the
embedding carries the kind explicitly. -/
inductive LoginError where
  | timeout
  | invalidCredentials
  | other
  deriving Repr, DecidableEq

/-- Outcome of the `axios.post` to the login endpoint:
either a response whose `data.token` field is the given string (possibly
empty — the code checks its truthiness), a response without a usable
token, or a thrown error. -/
inductive LoginOutcome where
  | ok (token : String)
  | noToken
  | err (e : LoginError)
  deriving Repr, DecidableEq

/-- Result of one call to loginToMavely: the returned value, the
module state after the call, and how many network login requests the
call issued (0 when the cache was used, 1 otherwise). -/
structure LoginResult where
  ret : Option String
  state : AuthState
  networkCalls : Nat
  deriving Repr, DecidableEq

/-- Shallow embedding of `loginToMavely` (auth.ts lines 13–48).
If the cached token is truthy and unexpired it is returned with no
network request.  Otherwise one login request is issued; a response with
a truthy `data.token` is cached with a one-hour expiry and returned;
any other response, and any thrown error, yields `null` and leaves the
cache unchanged. -/
def loginToMavely (s : AuthState) (now : Nat) (o : LoginOutcome) : LoginResult :=
  if cacheValid s now then
    { ret := s.authToken, state := s, networkCalls := 0 }
  else
    match o with
    | .ok token =>
        if truthyOpt (some token) then
          { ret := some token
            state := { authToken := some token, tokenExpiry := some (now + tokenExpiryMs) }
            networkCalls := 1 }
        else
          { ret := none, state := s, networkCalls := 1 }
    | .noToken => { ret := none, state := s, networkCalls := 1 }
    | .err _ => { ret := none, state := s, networkCalls := 1 }

/-- Shallow embedding of `getAuthToken` (auth.ts lines 54–56): it simply
delegates to loginToMavely. -/
def getAuthToken (s : AuthState) (now : Nat) (o : LoginOutcome) : LoginResult :=
  loginToMavely s now o

/-- Shallow embedding of `clearAuthToken`: resets both module variables
to `null`. -/
def clearAuthToken (_ : AuthState) : AuthState := initialAuthState

/-- A process restart discards the in-memory module state; the new
process re-runs the module initialisers, so it starts from
`initialAuthState`.  auth.ts writes the token to no other location
(IMPLEMENTATION.md: tokens are cached in memory only). -/
def processRestart (_ : AuthState) : AuthState := initialAuthState

/-! ## src/services/affiliate.ts -/

/-- Kinds of errors the affiliate-link request can fail with. -/
inductive ApiError where
  | timeout
  | sessionExpired
  | other
  deriving Repr, DecidableEq

/-- Outcome of the `axios.post` to the `/link` endpoint: either a
response whose `data.affiliateLink` field is the given value (absent or
empty counts as falsy), or a thrown error. -/
inductive ApiOutcome where
  | ok (affiliateLink : Option String)
  | err (e : ApiError)
  deriving Repr, DecidableEq

/-- One HTTP request to the affiliate-link endpoint, with the
Authorization header it carried. -/
structure ApiRequest where
  url : String
  authHeader : String
  deriving Repr, DecidableEq

/-- Result of a JavaScript computation as observed by its caller:
either a normal return value or an exception propagating out. -/
inductive JsResult (α : Type) where
  | value (a : α)
  | thrown (e : ApiError)
  deriving Repr, DecidableEq

/-- Result of one call to generateAffiliateLink: the returned value, the
auth-module state afterwards, how many network login requests were
issued, and the affiliate-link API requests that were sent. -/
structure MintResult where
  ret : Option String
  state : AuthState
  loginCalls : Nat
  apiRequests : List ApiRequest
  deriving Repr, DecidableEq

/-- Shallow embedding of `generateAffiliateLink` (affiliate.ts lines
6–43).  It first calls getAuthToken; a falsy token returns `null`
without issuing the link request.  Otherwise one request is posted with
the token as Bearer credential; a response with a truthy
`data.affiliateLink` is returned, any other response yields `null`, and
a thrown error is caught by the catch-all handler which also returns
`null`. -/
def generateAffiliateLink (s : AuthState) (now : Nat) (lo : LoginOutcome)
    (api : ApiOutcome) (url : String) : MintResult :=
  let l := getAuthToken s now lo
  if truthyOpt l.ret then
    let tok := l.ret.getD ""
    let req : ApiRequest := { url := url, authHeader := "Bearer " ++ tok }
    match api with
    | .ok link =>
        if truthyOpt link then
          { ret := link, state := l.state, loginCalls := l.networkCalls, apiRequests := [req] }
        else
          { ret := none, state := l.state, loginCalls := l.networkCalls, apiRequests := [req] }
    | .err _ =>
        { ret := none, state := l.state, loginCalls := l.networkCalls, apiRequests := [req] }
  else
    { ret := none, state := l.state, loginCalls := l.networkCalls, apiRequests := [] }

/-- The code inside the `try` block of generateAffiliateLink: a thrown
axios error propagates as `.thrown` out of the block. -/
def generateAffiliateLinkTryBlock (s : AuthState) (now : Nat) (lo : LoginOutcome)
    (api : ApiOutcome) : JsResult (Option String) :=
  let l := getAuthToken s now lo
  if truthyOpt l.ret then
    match api with
    | .ok link => .value (if truthyOpt link then link else none)
    | .err e => .thrown e
  else
    .value none

/-- generateAffiliateLink as observed by its caller: the catch-all
handler turns every error thrown inside the `try` block into a normal
`null` return. -/
def generateAffiliateLinkJs (s : AuthState) (now : Nat) (lo : LoginOutcome)
    (api : ApiOutcome) : JsResult (Option String) :=
  match generateAffiliateLinkTryBlock s now lo api with
  | .value v => .value v
  | .thrown _ => .value none

/-! ## commands/linkHandler.ts (handleLink) -/

/-- Splits a leading `https://` or `http://` scheme off a character
list (the `https?:\/\/` part of the URL regex), returning the scheme
characters and the remainder. -/
def schemeSplit : List Char → Option (List Char × List Char)
  | 'h' :: 't' :: 't' :: 'p' :: 's' :: ':' :: '/' :: '/' :: r =>
      some (['h', 't', 't', 'p', 's', ':', '/', '/'], r)
  | 'h' :: 't' :: 't' :: 'p' :: ':' :: '/' :: '/' :: r =>
      some (['h', 't', 't', 'p', ':', '/', '/'], r)
  | _ => none

/-- Scanning loop of `content.match(/(https?:\/\/[^\s]+)/g)`: at each
position, if the text starts with a scheme followed by at least one
non-whitespace character, the maximal non-whitespace run completes a
match and scanning resumes after it; otherwise scanning advances one
character.  The fuel argument bounds the recursion by the input
length. -/
def extractUrlsAux : Nat → List Char → List String
  | 0, _ => []
  | _ + 1, [] => []
  | fuel + 1, c :: rest =>
      match schemeSplit (c :: rest) with
      | some (scheme, r) =>
          let t := r.takeWhile (fun ch => !ch.isWhitespace)
          if t.isEmpty then extractUrlsAux fuel rest
          else String.mk (scheme ++ t) :: extractUrlsAux fuel (r.drop t.length)
      | none => extractUrlsAux fuel rest

/-- All matches of the URL regex in a message, in order.  JavaScript's
`match` returns `null` when there is no match; handleLink guards with
`urls && urls.length > 0`, which is equivalent to this list being
non-empty. -/
def extractUrls (content : String) : List String :=
  extractUrlsAux content.data.length content.data

/-- Reply sent when the message contains no URL. -/
def promptReply : String := "Please send a valid link to generate an affiliate link."

/-- Reply sent from the catch branch of handleLink. -/
def errorReply : String :=
  "There was an error generating your affiliate link. Please try again later."

/-- JavaScript template-literal rendering of a `string | null` value:
`null` prints as the four characters `null`. -/
def displayOpt : Option String → String
  | none => "null"
  | some s => s

/-- Result of one handleLink invocation: the reply text and the URLs
that were passed to generateAffiliateLink. -/
structure HandleResult where
  reply : String
  mintedUrls : List String
  deriving Repr, DecidableEq

/-- Shallow embedding of `handleLink`: it matches the URL regex against
the message content; with no match it replies with the prompt; otherwise
it converts `urls[0]` only, replying with the template literal around
the result, and the catch branch replies with the error message if
generateAffiliateLink throws. -/
def handleLink (content : String) (s : AuthState) (now : Nat) (lo : LoginOutcome)
    (api : ApiOutcome) : HandleResult :=
  match extractUrls content with
  | [] => { reply := promptReply, mintedUrls := [] }
  | originalLink :: _ =>
      match generateAffiliateLinkJs s now lo api with
      | .value affiliateLink =>
          { reply := "Here is your Mavely affiliate link: " ++ displayOpt affiliateLink
            mintedUrls := [originalLink] }
      | .thrown _ => { reply := errorReply, mintedUrls := [originalLink] }

/-! ## Interleaving model of concurrent loginToMavely calls

JavaScript is single-threaded with cooperative scheduling: an async
function runs atomically between `await` points.  loginToMavely has one
`await` that matters for the cache: everything up to the `axios.post`
(the cache check and issuing the request) is one atomic step, and the
continuation after the `await` (storing the token and returning) is
another.  A schedule is the order in which the steps of two concurrent
calls run on the event loop. -/

/-- Where one loginToMavely call currently is: not yet started, request
issued and awaiting the response, or returned with the given value. -/
inductive TaskPhase where
  | start
  | awaiting
  | done (ret : Option String)
  deriving Repr, DecidableEq

/-- State of the event-loop system: the shared auth-module cache, the
phase of each of the two concurrent calls, the total number of login
requests issued, the number currently in flight, and the maximum number
that were ever in flight simultaneously. -/
structure ConcState where
  cache : AuthState
  taskA : TaskPhase
  taskB : TaskPhase
  requestsIssued : Nat
  inFlight : Nat
  maxInFlight : Nat
  deriving Repr, DecidableEq

/-- One atomic step of a single loginToMavely call, following auth.ts:
from `start`, the cache check either returns the cached token (no
request) or issues the login request and suspends; from `awaiting`, the
response is processed exactly as in loginToMavely (a truthy token is
written to the shared cache).  Returns the new phase, the new cache, and
whether a request was issued or completed by this step. -/
def taskStep (now : Nat) (o : LoginOutcome) (cache : AuthState) (p : TaskPhase) :
    TaskPhase × AuthState × Bool × Bool :=
  match p with
  | .start =>
      if cacheValid cache now then (.done cache.authToken, cache, false, false)
      else (.awaiting, cache, true, false)
  | .awaiting =>
      match o with
      | .ok t =>
          if truthyOpt (some t) then
            (.done (some t),
             { authToken := some t, tokenExpiry := some (now + tokenExpiryMs) },
             false, true)
          else (.done none, cache, false, true)
      | .noToken => (.done none, cache, false, true)
      | .err _ => (.done none, cache, false, true)
  | .done r => (.done r, cache, false, false)

/-- Runs one scheduled step: `false` steps call A, `true` steps call B;
the bookkeeping counters are updated from what the step did. -/
def schedStep (now : Nat) (o : LoginOutcome) (st : ConcState) (i : Bool) : ConcState :=
  let p := if i then st.taskB else st.taskA
  let r := taskStep now o st.cache p
  let issued : Nat := if r.2.2.1 then 1 else 0
  let completed : Nat := if r.2.2.2 then 1 else 0
  let inF := st.inFlight + issued - completed
  { cache := r.2.1
    taskA := if i then st.taskA else r.1
    taskB := if i then r.1 else st.taskB
    requestsIssued := st.requestsIssued + issued
    inFlight := inF
    maxInFlight := max st.maxInFlight inF }

/-- Runs a whole schedule from a starting state. -/
def runSchedule (now : Nat) (o : LoginOutcome) (sched : List Bool) (st : ConcState) :
    ConcState :=
  sched.foldl (schedStep now o) st

/-- Two concurrent loginToMavely calls arriving while the module cache
is empty. -/
def twoCallInit : ConcState :=
  { cache := initialAuthState
    taskA := .start
    taskB := .start
    requestsIssued := 0
    inFlight := 0
    maxInFlight := 0 }

/-! ## Extraction pipeline and rate limiter (modelled from the spec)

No extraction pipeline or rate limiter exists under src/ — only the
spec (§4.1, §4.4, §8) describes them — so they are modelled from the
spec's words. -/

/-- Modelled from the spec: the optional fields of a ProductRecord that
extraction stages can contribute (§3: `title?`, `original_price?`,
`sale_price?`, `currency?`). -/
structure StageFields where
  title : Option String
  originalPrice : Option String
  salePrice : Option String
  currency : Option String
  deriving Repr, DecidableEq

/-- No field resolved yet. -/
def emptyFields : StageFields := { title := none, originalPrice := none
                                   salePrice := none, currency := none }

/-- Modelled from the spec: `status ∈ {success, partial, failed}` of an
ExtractionAttempt (§3); `incomplete` stands for the spec's middle
status. -/
inductive StageStatus where
  | success
  | incomplete
  | failed
  deriving Repr, DecidableEq

/-- Modelled from the spec: one ExtractionAttempt — the stage's status
and the partial fields it contributed (§3). -/
structure ExtractionAttempt where
  status : StageStatus
  fields : StageFields
  deriving Repr, DecidableEq

/-- Modelled from the spec: the error kind returned when all stages are
exhausted with no required field (§7). -/
inductive ExtractError where
  | extractionFailed
  deriving Repr, DecidableEq

/-- Modelled from the spec: a merged ProductRecord (§3, restricted to
the fields the pipeline merges). -/
structure ProductRecord where
  url : String
  fields : StageFields
  deriving Repr, DecidableEq

/-- Modelled from the spec: a later stage may only fill a field left
empty by earlier stages; it never overwrites an already-resolved field
(§4.1 step 3). -/
def fillField (a b : Option String) : Option String :=
  match a with
  | some v => some v
  | none => b

/-- Field-level additive merge of a later stage's fields into the
accumulated record (§4.1 step 3). -/
def mergeFields (acc new : StageFields) : StageFields :=
  { title := fillField acc.title new.title
    originalPrice := fillField acc.originalPrice new.originalPrice
    salePrice := fillField acc.salePrice new.salePrice
    currency := fillField acc.currency new.currency }

/-- Modelled from the spec: required fields are a title plus at least
one price (§4.1 step 2). -/
def requiredFieldsPresent (f : StageFields) : Bool :=
  f.title.isSome && (f.originalPrice.isSome || f.salePrice.isSome)

/-- Modelled from the spec: the pipeline's merge-and-check over the
stage attempts in priority order — failed attempts contribute nothing,
the others merge additively, and a merged record lacking the required
fields yields an `ExtractionFailed` error rather than an empty record
(§4.1 steps 3–4). -/
def runPipeline (url : String) (attempts : List ExtractionAttempt) :
    Except ExtractError ProductRecord :=
  let merged := attempts.foldl
    (fun acc a => if a.status = .failed then acc else mergeFields acc a.fields)
    emptyFields
  if requiredFieldsPresent merged then .ok { url := url, fields := merged }
  else .error .extractionFailed

/-- Modelled from the spec: the RateLimiter's state — the timestamps of
the calls granted in the current rolling window (§4.4, §8). -/
structure RateLimiterState where
  calls : List Nat
  deriving Repr, DecidableEq

/-- A fresh rate limiter with no calls recorded. -/
def emptyRateLimiter : RateLimiterState := { calls := [] }

/-- Result of asking the rate limiter for one call. -/
inductive RateLimitResult where
  | granted
  | rateLimited
  deriving Repr, DecidableEq

/-- A recorded call at time `t` still counts against the rolling window
at time `now`. -/
def withinWindow (win now t : Nat) : Bool := decide (now < t + win)

/-- Modelled from the spec: one call against a budget of `nMax` calls
per rolling window of length `win` — if fewer than `nMax` granted calls
lie within the window the call is granted and recorded, otherwise it
fails immediately with RateLimited, recording and queuing nothing
(§4.4, §8). -/
def rateLimiterCall (nMax win : Nat) (st : RateLimiterState) (now : Nat) :
    RateLimitResult × RateLimiterState :=
  let recent := st.calls.filter (withinWindow win now)
  if recent.length < nMax then (.granted, { calls := now :: recent })
  else (.rateLimited, st)

/-- Runs the rate limiter over a sequence of call times, collecting each
call's result and the final state. -/
def rateLimiterRun (nMax win : Nat) (st : RateLimiterState) :
    List Nat → List RateLimitResult × RateLimiterState
  | [] => ([], st)
  | now :: rest =>
      let r := rateLimiterCall nMax win st now
      let rr := rateLimiterRun nMax win r.2 rest
      (r.1 :: rr.1, rr.2)

/-- Modelled from the spec's words, as the comparison point for the
limiter: the full-history rolling-window rule — a call at time `now` is
permitted exactly when fewer than `nMax` of the previously granted
calls lie within the rolling window ending at `now`, and a refused call
is never recorded (§4.4, §8). -/
def grantedHistoryRun (nMax win : Nat) (granted : List Nat) :
    List Nat → List RateLimitResult
  | [] => []
  | now :: rest =>
      if (granted.filter (withinWindow win now)).length < nMax then
        .granted :: grantedHistoryRun nMax win (now :: granted) rest
      else
        .rateLimited :: grantedHistoryRun nMax win granted rest

end Mavely

namespace Mavely

/-- **C1.** For every call to getAuthToken/loginToMavely: if a token is
cached and its expiry is still in the future (the cache check passes),
the call returns that cached token and issues no network login request;
if the cache check fails (no token or expired), the call issues exactly
one fresh credential login, and when that login succeeds with a truthy
token the call returns the newly obtained token. -/
theorem C1_auth_cache_or_fresh_login (s : AuthState) (now : Nat) (o : LoginOutcome) :
    (cacheValid s now = true →
      getAuthToken s now o = { ret := s.authToken, state := s, networkCalls := 0 }) ∧
    (cacheValid s now = false →
      (getAuthToken s now o).networkCalls = 1 ∧
      ∀ t : String, o = .ok t → t ≠ "" → (getAuthToken s now o).ret = some t) := by
  constructor
  · intro h
    simp [getAuthToken, loginToMavely, h]
  · intro h
    refine ⟨?_, ?_⟩
    · cases o with
      | ok token =>
          by_cases ht : token = "" <;>
            simp [getAuthToken, loginToMavely, h, truthyOpt, ht]
      | noToken => simp [getAuthToken, loginToMavely, h]
      | err e => simp [getAuthToken, loginToMavely, h]
    · intro t ho ht
      subst ho
      simp [getAuthToken, loginToMavely, h, truthyOpt, ht]

/-- Witness for C1: with a cached token "tok" valid until time 100,
a call at time 50 returns the cached token with no network request; from
the initial (empty) state a call whose login succeeds with token "fresh"
issues one request and returns "fresh". -/
theorem C1_auth_cache_or_fresh_login_witness :
    getAuthToken ⟨some "tok", some 100⟩ 50 .noToken
        = { ret := some "tok", state := ⟨some "tok", some 100⟩, networkCalls := 0 } ∧
    ((getAuthToken initialAuthState 50 (.ok "fresh")).networkCalls = 1 ∧
      (getAuthToken initialAuthState 50 (.ok "fresh")).ret = some "fresh") :=
  ⟨(C1_auth_cache_or_fresh_login ⟨some "tok", some 100⟩ 50 .noToken).1 (by decide),
   ⟨((C1_auth_cache_or_fresh_login initialAuthState 50 (.ok "fresh")).2 (by decide)).1,
    ((C1_auth_cache_or_fresh_login initialAuthState 50 (.ok "fresh")).2 (by decide)).2
      "fresh" rfl (by decide)⟩⟩

/-- **C2.** Every generateAffiliateLink call first obtains an
authenticated token; when authentication fails (the token is null) the
call returns a failure (null) without issuing any affiliate-link
request, and when authentication yields a token the single link request
sent carries that token as the Authorization bearer credential. -/
theorem C2_mint_requires_auth (s : AuthState) (now : Nat) (lo : LoginOutcome)
    (api : ApiOutcome) (url : String) :
    ((getAuthToken s now lo).ret = none →
      (generateAffiliateLink s now lo api url).ret = none ∧
      (generateAffiliateLink s now lo api url).apiRequests = []) ∧
    (∀ tok : String, (getAuthToken s now lo).ret = some tok → tok ≠ "" →
      (generateAffiliateLink s now lo api url).apiRequests
        = [{ url := url, authHeader := "Bearer " ++ tok }]) := by
  constructor
  · intro h
    simp [generateAffiliateLink, h, truthyOpt]
  · intro tok h ht
    cases api with
    | ok link =>
        simp [generateAffiliateLink, h, truthyOpt, ht]
        split <;> rfl
    | err e => simp [generateAffiliateLink, h, truthyOpt, ht]

/-- Witness for C2: with a login outcome carrying no token the mint
fails with no API request; with a successful login the single request
carries the bearer token. -/
theorem C2_mint_requires_auth_witness :
    ((generateAffiliateLink initialAuthState 0 .noToken (.ok (some "aff")) "https://x").ret
        = none ∧
     (generateAffiliateLink initialAuthState 0 .noToken (.ok (some "aff")) "https://x").apiRequests
        = []) ∧
    (generateAffiliateLink initialAuthState 0 (.ok "tok") (.ok (some "aff")) "https://x").apiRequests
      = [{ url := "https://x", authHeader := "Bearer " ++ "tok" }] :=
  ⟨(C2_mint_requires_auth initialAuthState 0 .noToken (.ok (some "aff")) "https://x").1
      (by decide),
   (C2_mint_requires_auth initialAuthState 0 (.ok "tok") (.ok (some "aff")) "https://x").2
      "tok" (by decide) (by decide)⟩

/-- **C3 (counterexample).** The claim says the authenticated session
survives process restarts.  In the code the token lives only in the two
module-level variables: after a successful login at time 0 a call at
time 1 indeed uses the cache (0 network requests), but after a process
restart the same call must issue a fresh network login (1 request) and,
the login outcome aside, recovers nothing from any storage — the stored
session is gone even though the pre-restart token was valid until time
3600000. -/
theorem C3_counterexample :
    ((loginToMavely initialAuthState 0 (.ok "tok")).state
        = { authToken := some "tok", tokenExpiry := some 3600000 }) ∧
    (getAuthToken (loginToMavely initialAuthState 0 (.ok "tok")).state 1 .noToken).networkCalls
        = 0 ∧
    ¬ ((getAuthToken (processRestart (loginToMavely initialAuthState 0 (.ok "tok")).state) 1
          .noToken).networkCalls = 0) ∧
    (getAuthToken (processRestart (loginToMavely initialAuthState 0 (.ok "tok")).state) 1
        .noToken).ret = none := by decide

/-- **C3 (amended).** The session credential is cached in process
memory only and is never written to durable storage: a process restart
resets the auth module to its initial state, so the first getAuthToken
call after a restart always performs a fresh credential login, even when
the pre-restart token was still unexpired. -/
theorem C3_amended_no_persistence (s : AuthState) (now : Nat) (o : LoginOutcome) :
    processRestart s = initialAuthState ∧
    (getAuthToken (processRestart s) now o).networkCalls = 1 := by
  refine ⟨rfl, ?_⟩
  cases o with
  | ok token =>
      by_cases ht : token = "" <;>
        simp [getAuthToken, loginToMavely, processRestart, cacheValid, truthyOpt,
          initialAuthState, ht]
  | noToken =>
      simp [getAuthToken, loginToMavely, processRestart, cacheValid, truthyOpt,
        initialAuthState]
  | err e =>
      simp [getAuthToken, loginToMavely, processRestart, cacheValid, truthyOpt,
        initialAuthState]

/-- **C4 (counterexample).** The claim says a login timeout is retried
with backoff and failure surfaces only after retries are exhausted, with
invalid credentials handled differently.  In the code the first timeout
already surfaces failure (null) after exactly one login attempt — there
is no retry — and a timeout is handled identically to invalid
credentials. -/
theorem C4_counterexample :
    (loginToMavely initialAuthState 0 (.err .timeout)).ret = none ∧
    (loginToMavely initialAuthState 0 (.err .timeout)).networkCalls = 1 ∧
    ¬ 1 < (loginToMavely initialAuthState 0 (.err .timeout)).networkCalls ∧
    loginToMavely initialAuthState 0 (.err .timeout)
      = loginToMavely initialAuthState 0 (.err .invalidCredentials) := by decide

/-- **C4 (amended).** Login failures are not distinguished by kind:
whenever the cache check fails, a login attempt that ends in an error —
timeout, invalid credentials, or anything else — results in exactly one
login request, no retry, and an immediate null return with the cache
unchanged. -/
theorem C4_amended_uniform_failure (s : AuthState) (now : Nat) (e : LoginError)
    (h : cacheValid s now = false) :
    loginToMavely s now (.err e) = { ret := none, state := s, networkCalls := 1 } := by
  simp [loginToMavely, h]

/-- Witness for the amended C4 at a concrete timed-out login from the
initial state. -/
theorem C4_amended_uniform_failure_witness :
    loginToMavely initialAuthState 0 (.err .timeout)
      = { ret := none, state := initialAuthState, networkCalls := 1 } :=
  C4_amended_uniform_failure initialAuthState 0 .timeout (by decide)

/-- **C5 (counterexample).** The claim says a failed mint attempt is
retried exactly once and only a second consecutive failure is surfaced.
In the code a mint whose API call times out — and likewise one that
fails from a mid-operation session expiry — issues exactly one
affiliate-link request and surfaces the failure (null) immediately; no
second attempt is ever made. -/
theorem C5_counterexample :
    (generateAffiliateLink { authToken := some "tok", tokenExpiry := some 100 } 50
        .noToken (.err .timeout) "https://x").ret = none ∧
    (generateAffiliateLink { authToken := some "tok", tokenExpiry := some 100 } 50
        .noToken (.err .timeout) "https://x").apiRequests.length = 1 ∧
    (generateAffiliateLink { authToken := some "tok", tokenExpiry := some 100 } 50
        .noToken (.err .sessionExpired) "https://x").apiRequests.length = 1 := by decide

/-- **C5 (amended).** A failed mint attempt is not retried: every
generateAffiliateLink call issues at most one affiliate-link request,
and any API error (timeout or mid-operation session expiry alike) is
surfaced to the caller as null immediately after that single attempt. -/
theorem C5_amended_no_retry (s : AuthState) (now : Nat) (lo : LoginOutcome)
    (api : ApiOutcome) (url : String) :
    (generateAffiliateLink s now lo api url).apiRequests.length ≤ 1 ∧
    (∀ e : ApiError, api = .err e → (generateAffiliateLink s now lo api url).ret = none) := by
  constructor
  · by_cases htok : truthyOpt (getAuthToken s now lo).ret
    · cases api with
      | ok link =>
          by_cases hl : truthyOpt link <;> simp [generateAffiliateLink, htok, hl]
      | err e => simp [generateAffiliateLink, htok]
    · simp [generateAffiliateLink, htok]
  · intro e he
    subst he
    by_cases htok : truthyOpt (getAuthToken s now lo).ret <;>
      simp [generateAffiliateLink, htok]

/-- Witness for the amended C5: a concrete timed-out mint returns
null. -/
theorem C5_amended_no_retry_witness :
    (generateAffiliateLink initialAuthState 0 (.ok "tok") (.err .timeout) "https://x").ret
      = none :=
  (C5_amended_no_retry initialAuthState 0 (.ok "tok") (.err .timeout) "https://x").2
    .timeout rfl

/-- If every attempt is failed or contributes no title, the pipeline
fold never acquires a title. -/
theorem pipelineFold_title_none (attempts : List ExtractionAttempt) (acc : StageFields)
    (hacc : acc.title = none)
    (h : ∀ a ∈ attempts, a.status = .failed ∨ a.fields.title = none) :
    (attempts.foldl
        (fun b a => if a.status = .failed then b else mergeFields b a.fields) acc).title
      = none := by
  induction attempts generalizing acc with
  | nil => simpa using hacc
  | cons a rest ih =>
      simp only [List.foldl_cons]
      by_cases hf : a.status = .failed
      · rw [if_pos hf]
        exact ih acc hacc (fun x hx => h x (by simp [hx]))
      · rw [if_neg hf]
        have ht : a.fields.title = none := by
          rcases h a (by simp) with h1 | h1
          · exact absurd h1 hf
          · exact h1
        refine ih (mergeFields acc a.fields) ?_ (fun x hx => h x (by simp [hx]))
        simp [mergeFields, fillField, hacc, ht]

/-- **C6.** (spec-modelled) For every extraction request in which every
configured stage fails or no stage contributes any required field, the
pipeline returns an error of kind ExtractionFailed rather than an empty
or fabricated ProductRecord. -/
theorem C6_pipeline_exhaustion (url : String) (attempts : List ExtractionAttempt)
    (h : ∀ a ∈ attempts, a.status = .failed ∨
          (a.fields.title = none ∧ a.fields.originalPrice = none ∧
            a.fields.salePrice = none)) :
    runPipeline url attempts = .error .extractionFailed := by
  have htitle :
      (attempts.foldl
          (fun b a => if a.status = .failed then b else mergeFields b a.fields)
          emptyFields).title = none :=
    pipelineFold_title_none attempts emptyFields rfl
      (fun a ha => (h a ha).imp id And.left)
  unfold runPipeline
  rw [if_neg]
  simp [requiredFieldsPresent, htitle]

/-- Witness for C6: one failed attempt (whose fields are ignored) and
one incomplete attempt with no fields yield ExtractionFailed. -/
theorem C6_pipeline_exhaustion_witness :
    runPipeline "https://x"
        [{ status := .failed,
           fields := { title := some "T", originalPrice := some "1",
                       salePrice := none, currency := none } },
         { status := .incomplete, fields := emptyFields }]
      = .error .extractionFailed :=
  C6_pipeline_exhaustion "https://x"
    [{ status := .failed,
       fields := { title := some "T", originalPrice := some "1",
                   salePrice := none, currency := none } },
     { status := .incomplete, fields := emptyFields }]
    (by decide)

/-- Re-filtering with a later window keeps exactly the entries of the
later window: an entry inside the window at time `c` (with `a ≤ c`) was
also inside the window at time `a`, so the earlier pruning lost
nothing. -/
theorem filter_withinWindow_absorb (win a c : Nat) (hac : a ≤ c) (l : List Nat) :
    (l.filter (withinWindow win a)).filter (withinWindow win c)
      = l.filter (withinWindow win c) := by
  induction l with
  | nil => rfl
  | cons t rest ih =>
      by_cases h1 : withinWindow win a t = true
      · by_cases h2 : withinWindow win c t = true <;>
          simp [List.filter_cons, h1, h2, ih]
      · have h2 : withinWindow win c t = false := by
          simp only [withinWindow, decide_eq_true_eq] at h1 ⊢
          simp only [decide_eq_false_iff_not]
          omega
        simp [List.filter_cons, h1, h2, ih]

/-- The pruning limiter is equivalent to the full-history rolling-window
rule: over a monotone sequence of call times, pruned state and full
granted history agree on every window-restricted view, so both produce
the same grant/refuse decisions. -/
theorem rateLimiterRun_eq_history (nMax win : Nat) (times : List Nat) (b : Nat)
    (st : RateLimiterState) (granted : List Nat)
    (hchain : List.Chain (fun a b => a ≤ b) b times)
    (hinv : ∀ c, b ≤ c → st.calls.filter (withinWindow win c)
        = granted.filter (withinWindow win c)) :
    (rateLimiterRun nMax win st times).1 = grantedHistoryRun nMax win granted times := by
  induction times generalizing b st granted with
  | nil => rfl
  | cons now rest ih =>
      obtain ⟨hb, hchain2⟩ := List.chain_cons.mp hchain
      have hcnt : (st.calls.filter (withinWindow win now)).length
          = (granted.filter (withinWindow win now)).length := by
        rw [hinv now hb]
      simp only [rateLimiterRun, rateLimiterCall, grantedHistoryRun]
      by_cases hlt : (granted.filter (withinWindow win now)).length < nMax
      · have hlt2 : (st.calls.filter (withinWindow win now)).length < nMax := by
          rw [hcnt]; exact hlt
        rw [if_pos hlt2, if_pos hlt]
        refine congrArg (List.cons _)
          (ih now { calls := now :: st.calls.filter (withinWindow win now) }
            (now :: granted) hchain2 ?_)
        intro c hc
        have hcc : (st.calls.filter (withinWindow win now)).filter (withinWindow win c)
            = granted.filter (withinWindow win c) := by
          rw [filter_withinWindow_absorb win now c hc, hinv c (le_trans hb hc)]
        simp only [List.filter_cons, hcc]
      · have hlt2 : ¬ (st.calls.filter (withinWindow win now)).length < nMax := by
          rw [hcnt]; exact hlt
        rw [if_neg hlt2, if_neg hlt]
        exact congrArg (List.cons _)
          (ih now st granted hchain2 (fun c hc => hinv c (le_trans hb hc)))

/-- **C7.** (spec-modelled) The rate limiter permits exactly N calls
per rolling time window: over every monotone sequence of call times the
limiter grants and refuses exactly as the full-history rolling-window
rule does — a call is granted precisely when fewer than N
already-granted calls lie within the window ending at it, so calls that
age out of the window free the budget again — and for every state in
which N granted calls already lie within the window at the current
time, the next call fails immediately with RateLimited and the state is
left unchanged: nothing blocks or queues. -/
theorem C7_rate_limiter (nMax win : Nat) (st : RateLimiterState) (now : Nat)
    (times : List Nat) (hchain : List.Chain (fun a b => a ≤ b) 0 times) :
    ((rateLimiterRun nMax win emptyRateLimiter times).1
        = grantedHistoryRun nMax win [] times) ∧
    (nMax ≤ (st.calls.filter (withinWindow win now)).length →
      rateLimiterCall nMax win st now = (.rateLimited, st)) ∧
    ((st.calls.filter (withinWindow win now)).length < nMax →
      (rateLimiterCall nMax win st now).1 = .granted) := by
  refine ⟨?_, ?_, ?_⟩
  · exact rateLimiterRun_eq_history nMax win times 0 emptyRateLimiter []
      hchain (fun c hc => rfl)
  · intro hk
    simp [rateLimiterCall, Nat.not_lt.mpr hk]
  · intro hk
    simp [rateLimiterCall, hk]

/-- Witness for C7 with budget 2 and window 10 over the call times
0, 1, 2, 15: the first two calls are granted, the third is refused (two
granted calls in its window), and the call at 15 is granted again
because both earlier grants have aged out of the rolling window; and in
the state holding the two granted timestamps, the over-budget call at
time 2 is refused with the state unchanged. -/
theorem C7_rate_limiter_witness :
    ((rateLimiterRun 2 10 emptyRateLimiter [0, 1, 2, 15]).1
        = grantedHistoryRun 2 10 [] [0, 1, 2, 15]) ∧
    grantedHistoryRun 2 10 [] [0, 1, 2, 15]
        = [.granted, .granted, .rateLimited, .granted] ∧
    rateLimiterCall 2 10 { calls := [1, 0] } 2 = (.rateLimited, { calls := [1, 0] }) :=
  ⟨(C7_rate_limiter 2 10 { calls := [1, 0] } 2 [0, 1, 2, 15]
      (by simp [List.chain_cons])).1,
   by decide,
   (C7_rate_limiter 2 10 { calls := [1, 0] } 2 [0, 1, 2, 15]
      (by simp [List.chain_cons])).2.1 (by decide)⟩

/-- **C8 (counterexample).** The claim says a second login request is
never issued concurrently with the first and concurrent callers share
one in-flight attempt.  In the code there is no in-flight deduplication:
under the schedule where both concurrent calls run their cache check
before either response arrives, two login requests are issued and both
are in flight at once. -/
theorem C8_counterexample :
    ¬ ∀ sched : List Bool,
        (runSchedule 0 (.ok "tok") sched twoCallInit).requestsIssued ≤ 1 ∧
        (runSchedule 0 (.ok "tok") sched twoCallInit).maxInFlight ≤ 1 := by
  intro h
  exact absurd (h [false, true]).2 (by decide)

/-- **C8 (amended).** loginToMavely performs no in-flight
deduplication: when two concurrent calls both run their cache check
before either login response arrives, each issues its own login request
and two requests are in flight simultaneously; only a call whose cache
check runs after another call's successful login has completed shares
that login's result, returning the cached token without a new
request. -/
theorem C8_amended_no_dedup (now : Nat) (t : String) (ht : t ≠ "") :
    ((runSchedule now (.ok t) [false, true] twoCallInit).requestsIssued = 2 ∧
     (runSchedule now (.ok t) [false, true] twoCallInit).maxInFlight = 2) ∧
    ((runSchedule now (.ok t) [false, false, true] twoCallInit).requestsIssued = 1 ∧
     (runSchedule now (.ok t) [false, false, true] twoCallInit).taskB
        = .done (some t)) := by
  have hvalid : cacheValid
      { authToken := some t, tokenExpiry := some (now + tokenExpiryMs) } now = true := by
    simp [cacheValid, truthyOpt, tokenExpiryMs, ht]
  refine ⟨⟨?_, ?_⟩, ?_, ?_⟩ <;>
    simp [runSchedule, schedStep, taskStep, twoCallInit, cacheValid, truthyOpt,
      initialAuthState, tokenExpiryMs, ht, hvalid]

/-- Witness for the amended C8 at time 0 with token "tok". -/
theorem C8_amended_no_dedup_witness :
    (runSchedule 0 (.ok "tok") [false, true] twoCallInit).requestsIssued = 2 ∧
    (runSchedule 0 (.ok "tok") [false, false, true] twoCallInit).taskB
      = .done (some "tok") :=
  ⟨(C8_amended_no_dedup 0 "tok" (by decide)).1.1,
   (C8_amended_no_dedup 0 "tok" (by decide)).2.2⟩

/-- No exception escapes generateAffiliateLink: the catch-all handler
turns every thrown error into a normal return. -/
theorem generateAffiliateLinkJs_total (s : AuthState) (now : Nat) (lo : LoginOutcome)
    (api : ApiOutcome) :
    ∃ v, generateAffiliateLinkJs s now lo api = .value v := by
  unfold generateAffiliateLinkJs
  cases h : generateAffiliateLinkTryBlock s now lo api with
  | value v => exact ⟨v, rfl⟩
  | thrown e => exact ⟨none, rfl⟩

/-- The reply built from the mint result never equals the catch-branch
error reply: their first characters already differ. -/
theorem hereReply_ne_errorReply (x : String) :
    "Here is your Mavely affiliate link: " ++ x ≠ errorReply := by
  intro h
  have h2 : ("Here is your Mavely affiliate link: " ++ x).data.head? = some 'H' := rfl
  rw [h] at h2
  exact absurd h2 (by decide)

/-- **C9.** generateAffiliateLink is total over failures: whatever the
login outcome and API outcome, it returns a value (null on
authentication failure, on a thrown API error, and on a response lacking
the affiliateLink field) rather than throwing; consequently handleLink's
catch branch is unreachable — its reply is never the error message — and
a failed generation on a message containing a URL produces a reply whose
text contains the literal characters null. -/
theorem C9_mint_total_null (s : AuthState) (now : Nat) (lo : LoginOutcome)
    (api : ApiOutcome) (content : String) :
    (∃ v, generateAffiliateLinkJs s now lo api = .value v) ∧
    ((getAuthToken s now lo).ret = none →
      generateAffiliateLinkJs s now lo api = .value none) ∧
    (∀ e : ApiError, api = .err e →
      generateAffiliateLinkJs s now lo api = .value none) ∧
    (api = .ok none → generateAffiliateLinkJs s now lo api = .value none) ∧
    (handleLink content s now lo api).reply ≠ errorReply ∧
    (extractUrls content ≠ [] → generateAffiliateLinkJs s now lo api = .value none →
      (handleLink content s now lo api).reply
        = "Here is your Mavely affiliate link: null") := by
  obtain ⟨v, hv⟩ := generateAffiliateLinkJs_total s now lo api
  refine ⟨⟨v, hv⟩, ?_, ?_, ?_, ?_, ?_⟩
  · intro h
    simp [generateAffiliateLinkJs, generateAffiliateLinkTryBlock, h, truthyOpt]
  · intro e he
    subst he
    by_cases htok : truthyOpt (getAuthToken s now lo).ret <;>
      simp [generateAffiliateLinkJs, generateAffiliateLinkTryBlock, htok]
  · intro he
    subst he
    by_cases htok : truthyOpt (getAuthToken s now lo).ret <;>
      simp [generateAffiliateLinkJs, generateAffiliateLinkTryBlock, htok, truthyOpt]
  · cases hurl : extractUrls content with
    | nil =>
        simp only [handleLink, hurl]
        decide
    | cons u us =>
        simp only [handleLink, hurl, hv]
        exact hereReply_ne_errorReply (displayOpt v)
  · intro hne hnull
    cases hurl : extractUrls content with
    | nil => exact absurd hurl hne
    | cons u us =>
        simp only [handleLink, hurl, hnull]
        decide

/-- Witness for C9: an authentication failure on a message holding a
URL yields the reply whose text ends in null, not the error reply. -/
theorem C9_mint_total_null_witness :
    (handleLink "go https://x.com now" initialAuthState 0 .noToken
        (.ok (some "aff"))).reply = "Here is your Mavely affiliate link: null" :=
  (C9_mint_total_null initialAuthState 0 .noToken (.ok (some "aff"))
      "go https://x.com now").2.2.2.2.2 (by decide) (by decide)

/-- **C10.** For every inbound message, handleLink converts only the
first URL matched by its regex: with at least one match, exactly the
first match is passed to generateAffiliateLink (all later URLs in the
message are ignored), and with no match the reply is the prompt to send
a valid link. -/
theorem C10_first_url_only (content : String) (s : AuthState) (now : Nat)
    (lo : LoginOutcome) (api : ApiOutcome) :
    (extractUrls content = [] →
      handleLink content s now lo api = { reply := promptReply, mintedUrls := [] }) ∧
    (∀ u us, extractUrls content = u :: us →
      (handleLink content s now lo api).mintedUrls = [u]) := by
  constructor
  · intro h
    simp [handleLink, h]
  · intro u us h
    obtain ⟨v, hv⟩ := generateAffiliateLinkJs_total s now lo api
    simp [handleLink, h, hv]

/-- Witness for C10: a message with two URLs mints only the first; a
message with none gets the prompt. -/
theorem C10_first_url_only_witness :
    (handleLink "see https://a.com https://b.org now" initialAuthState 0 (.ok "tok")
        (.ok (some "aff"))).mintedUrls = ["https://a.com"] ∧
    handleLink "no links here" initialAuthState 0 (.ok "tok") (.ok (some "aff"))
      = { reply := promptReply, mintedUrls := [] } :=
  ⟨(C10_first_url_only "see https://a.com https://b.org now" initialAuthState 0
      (.ok "tok") (.ok (some "aff"))).2 "https://a.com" ["https://b.org"] (by decide),
   (C10_first_url_only "no links here" initialAuthState 0 (.ok "tok")
      (.ok (some "aff"))).1 (by decide)⟩

end Mavely
